/-
  Verification of the anomaly-detection program (src/main.py) against its
  natural-language specification.

  Layer A embeds the source script directly: the pandas rolling statistics
  (`rolling(window=5, min_periods=1).mean()/.std()`), the DataFrame column
  mutations performed by `detect_anomalies_isolation_forest`, the boolean-mask
  row filter `data[data['anomaly'] == -1]`, and the CSV export
  `save_anomalies_to_csv`.  Values are rationals; the pandas NaN produced by a
  size-one standard-deviation window is modelled as `Option.none`.

  Layer B models the isolation-forest scoring core.  The source delegates it to
  a library call (`sklearn.ensemble.IsolationForest`), whose code is not part
  of this repository, so the core is modelled from the specification: seeded
  per-tree pseudo-random source, subsample without replacement, randomized
  binary partition trees with depth cap `ceil(log2 s)`, path-length scoring
  with the harmonic adjustment `c(n) = 2*(ln(n-1)+gamma) - 2*(n-1)/n`,
  normalized score `2^(-E[h]/c(s))`, and contamination-driven top-k
  thresholding with ties included.
-/
import Mathlib

set_option maxRecDepth 4000

/-! ### Layer A: rolling statistics (pandas `rolling(window=w, min_periods=1)`) -/

/-- The trailing window of width `w` ending at index `i`:
`rolling(window=w, min_periods=1)` aggregates, at row `i`, the rows
`max(0, i-w+1) .. i` of the series. -/
def windowAt (xs : List ℚ) (w i : ℕ) : List ℚ :=
  (xs.take (i + 1)).drop (i + 1 - w)

/-- Arithmetic mean of a list of rationals (`0` on the empty list). -/
def meanOf (l : List ℚ) : ℚ := l.sum / l.length

/-- Unbiased sample variance with `n-1` denominator; `none` (pandas NaN)
when fewer than two observations are present. -/
def sampleVar (l : List ℚ) : Option ℚ :=
  if 2 ≤ l.length then
    some ((l.map (fun x => (x - meanOf l) ^ 2)).sum / ((l.length : ℚ) - 1))
  else none

/-- Rolling mean at index `i`: `Series.rolling(window=w, min_periods=1).mean()`. -/
def rollingMean (xs : List ℚ) (w i : ℕ) : ℚ := meanOf (windowAt xs w i)

/-- Rolling sample variance at index `i` (the square of the rolling std). -/
def rollingVar (xs : List ℚ) (w i : ℕ) : Option ℚ := sampleVar (windowAt xs w i)

/-- Rolling sample standard deviation at index `i`:
`Series.rolling(window=w, min_periods=1).std()`; `none` models NaN. -/
noncomputable def rollingStd (xs : List ℚ) (w i : ℕ) : Option ℝ :=
  (rollingVar xs w i).map (fun v => Real.sqrt (v : ℝ))

/-- The window as the specification words it: the elements of `xs` at indices
`max(0, i-w+1) .. i` inclusive (`Int.toNat` realizes the `max` with `0`).
Stated from the spec for comparison against `windowAt`, which is the source's
`rolling(window=w, min_periods=1)` aggregation window. -/
def specWindow (xs : List ℚ) (w i : ℕ) : List ℚ :=
  (List.range' (((i : ℤ) - w + 1).toNat) (i + 1 - ((i : ℤ) - w + 1).toNat)).map
    (fun j => xs[j]!)

/-- The whole `mean` column added by the source (window hard-coded to 5 there,
kept general here). -/
def meanColumn (xs : List ℚ) (w : ℕ) : List ℚ :=
  (List.range xs.length).map (rollingMean xs w)

/-- The whole `std_dev` column added by the source. -/
noncomputable def stdDevColumn (xs : List ℚ) (w : ℕ) : List (Option ℝ) :=
  (List.range xs.length).map (rollingStd xs w)

/-! ### Layer A: the DataFrame and the source functions -/

/-- The in-memory table of the script: the two columns loaded from CSV plus
the three columns the scoring function writes (absent = `none`). -/
structure Frame where
  timestamp : List ℤ
  value : List ℚ
  anomaly : Option (List ℤ)
  mean : Option (List ℚ)
  std_dev : Option (List (Option ℝ))

/-- Pandas boolean-mask row selection applied to one column. -/
def maskFilter (mask : List Bool) (col : List α) : List α :=
  ((col.zip mask).filter (fun p => p.2)).map (fun p => p.1)

/-- `data[data['anomaly'] == -1]`: every column filtered by the same mask. -/
noncomputable def frameFilter (d : Frame) (mask : List Bool) : Frame :=
  { timestamp := maskFilter mask d.timestamp
    value := maskFilter mask d.value
    anomaly := d.anomaly.map (maskFilter mask)
    mean := d.mean.map (maskFilter mask)
    std_dev := d.std_dev.map (maskFilter mask) }

/-- `detect_anomalies_isolation_forest` (src/main.py lines 8-25), with the
library model-fit abstracted as `fitPredict` (one label per row, `-1` =
anomaly, `1` = normal).  Returns the mutated frame (the in-place column
assignments) together with the returned `anomalies` sub-frame. -/
noncomputable def detect_anomalies_isolation_forest
    (fitPredict : List ℚ → List ℤ) (data : Frame) : Frame × Frame :=
  let labels := fitPredict data.value
  let d : Frame :=
    { timestamp := data.timestamp
      value := data.value
      anomaly := some labels
      mean := some (meanColumn data.value 5)
      std_dev := some (stdDevColumn data.value 5) }
  (d, frameFilter d (labels.map (fun a => a == -1)))

/-- The filename switch inside `save_anomalies_to_csv` (src/main.py 68-74). -/
def csvFilename (dataset_name : String) : String :=
  if dataset_name = "Server CPU Load" then "cpu_anomalies.csv"
  else if dataset_name = "Ambient System Temperature" then "temperature_anomalies.csv"
  else "nyc_taxi_anomalies.csv"

/-- Four-column row zip used by the export. -/
def zip4 : List α → List β → List γ → List δ → List (α × β × γ × δ)
  | a :: as, b :: bs, c :: cs, d :: ds => (a, b, c, d) :: zip4 as bs cs ds
  | _, _, _, _ => []

/-- `save_anomalies_to_csv` (src/main.py 63-78): the destination filename and
the rows written, i.e. `anomalies[['timestamp','value','mean','std_dev']]`. -/
noncomputable def save_anomalies_to_csv (anoms : Frame) (dataset_name : String) :
    String × List (ℤ × ℚ × ℚ × Option ℝ) :=
  (csvFilename dataset_name,
    zip4 anoms.timestamp anoms.value (anoms.mean.getD []) (anoms.std_dev.getD []))

/-! ### Layer B: the isolation-forest scoring core, modelled from the spec

The source delegates scoring to `sklearn.ensemble.IsolationForest`, which is
not part of this repository; the definitions below follow the specification's
algorithm (sections 4.2, 4.3, 5, 6, 7).  Exact rational arithmetic is carried
out on unnormalized `num/den` integer pairs (denominator kept positive by
construction), which the kernel can evaluate; `fracVal` gives their meaning
in `ℚ`. -/

/-- An observation of the batch: a timestamp paired with a numeric value. -/
structure Observation where
  timestamp : ℤ
  value : ℚ

/-- Modelled from the spec (section 6): the configuration of the scoring core. -/
structure Config where
  contamination : ℚ
  ensemble_size : ℕ
  subsample_size : ℕ
  window_size : ℕ
  random_seed : ℕ

/-- Modelled from the spec (section 7): the error kinds of the scoring core. -/
inductive DetectError where
  | configurationError
  | emptyBatchError
deriving DecidableEq

/-- Spec section 6: contamination in `(0,1]`, ensemble size `≥ 1`, subsample
size `≥ 2`, window size `≥ 1`. -/
def validConfig (cfg : Config) : Prop :=
  0 < cfg.contamination ∧ cfg.contamination ≤ 1 ∧
  1 ≤ cfg.ensemble_size ∧ 2 ≤ cfg.subsample_size ∧ 1 ≤ cfg.window_size

instance (cfg : Config) : Decidable (validConfig cfg) := by
  unfold validConfig; infer_instance

/-- An exact unnormalized fraction: numerator and (positive) denominator. -/
abbrev Frac := ℤ × ℤ

/-- The rational value of a fraction pair. -/
def fracVal (a : Frac) : ℚ := (a.1 : ℚ) / (a.2 : ℚ)

/-- Exact comparison of fraction pairs (positive denominators). -/
def fracLt (a b : Frac) : Bool := a.1 * b.2 < b.1 * a.2

/-- Exact equality test of fraction pairs (positive denominators). -/
def fracEq (a b : Frac) : Bool := a.1 * b.2 == b.1 * a.2

def fracAdd (a b : Frac) : Frac := (a.1 * b.2 + b.1 * a.2, a.2 * b.2)

def fracSub (a b : Frac) : Frac := (a.1 * b.2 - b.1 * a.2, a.2 * b.2)

def fracMul (a b : Frac) : Frac := (a.1 * b.1, a.2 * b.2)

def toFrac (q : ℚ) : Frac := (q.num, (q.den : ℤ))

/-- Minimum of a non-empty value list (first minimal element). -/
def fracMin : List Frac → Frac
  | [] => (0, 1)
  | x :: xs => xs.foldl (fun a b => if fracLt b a then b else a) x

/-- Maximum of a non-empty value list (first maximal element). -/
def fracMax : List Frac → Frac
  | [] => (0, 1)
  | x :: xs => xs.foldl (fun a b => if fracLt a b then b else a) x

/-- Modelled from the spec (section 5): the seeded pseudo-random source, one
independently seeded stream per tree.  A linear congruential generator with
modulus `2^16`. -/
def lcgNext (g : ℕ) : ℕ := (25173 * g + 13849) % 65536

/-- Modelled from the spec (section 4.2 step 1): draw `k` values without
replacement from the pool, threading the random state. -/
def drawSubsample : ℕ → List Frac → ℕ → List Frac × ℕ
  | 0, _, g => ([], g)
  | k + 1, pool, g =>
    let g1 := lcgNext g
    let idx := g1 % pool.length
    let x := pool[idx]!
    let rest := pool.eraseIdx idx
    let p := drawSubsample k rest g1
    (x :: p.1, p.2)

/-- A node of an isolation tree: internal nodes carry the split value, leaves
record the depth reached and the number of points left unsplit. -/
inductive ITree where
  | leaf (depth_reached : ℕ) (size_at_leaf : ℕ)
  | node (split_value : Frac) (left : ITree) (right : ITree)
deriving DecidableEq

/-- Modelled from the spec (section 4.2 steps 2-3): recursively partition the
subset `q`; terminate as a leaf when `|q| ≤ 1`, when the depth cap is reached
(`fuel = 0`), or when all values are identical; otherwise draw a split
uniformly in `[min q, max q)` and recurse on `{x < split}` and `{x ≥ split}`. -/
def buildTree : ℕ → ℕ → List Frac → ℕ → ITree × ℕ
  | 0, depth, q, g => (.leaf depth q.length, g)
  | fuel + 1, depth, q, g =>
    if q.length ≤ 1 then (.leaf depth q.length, g)
    else
      let mn := fracMin q
      let mx := fracMax q
      if fracEq mn mx then (.leaf depth q.length, g)
      else
        let g1 := lcgNext g
        let u : Frac := ((g1 : ℤ), (65536 : ℤ))
        let split := fracAdd mn (fracMul u (fracSub mx mn))
        let lres := buildTree fuel (depth + 1) (q.filter (fun x => fracLt x split)) g1
        let rres := buildTree fuel (depth + 1) (q.filter (fun x => !fracLt x split)) lres.2
        (.node split lres.1 rres.1, rres.2)

/-- Helper for `ceilLog2`: the least `k ≥ k0` with `n ≤ 2^k`, fuel-bounded. -/
def ceilLog2Go : ℕ → ℕ → ℕ → ℕ
  | 0, _, k => k
  | fuel + 1, n, k => if n ≤ 2 ^ k then k else ceilLog2Go fuel n (k + 1)

/-- `⌈log2 n⌉`: the least `k` with `n ≤ 2^k` (and `0` for `n = 0`). -/
def ceilLog2 (n : ℕ) : ℕ := ceilLog2Go n n 0

/-- Modelled from the spec (sections 3, 4.2): the forest.  Tree `t` uses seed
`random_seed + t`; each tree draws its own subsample of size
`min(subsample_size, |batch|)` and is capped at depth `ceil(log2 s)`. -/
def buildForest (cfg : Config) (values : List Frac) : List ITree :=
  let s := min cfg.subsample_size values.length
  let cap := ceilLog2 s
  (List.range cfg.ensemble_size).map (fun t =>
    let g0 := cfg.random_seed + t
    let sub := drawSubsample s values g0
    (buildTree cap 0 sub.1 sub.2).1)

/-- Modelled from the spec (section 4.3): descend from the root comparing the
value with each split; return the leaf's `(depth_reached, size_at_leaf)`. -/
def pathData : ITree → Frac → ℕ × ℕ
  | .leaf d sz, _ => (d, sz)
  | .node sp l r, x => if fracLt x sp then pathData l x else pathData r x

/-- The per-tree `(depth, leaf size)` data of one value across the forest. -/
def leafStats (cfg : Config) (values : List Frac) (x : Frac) : List (ℕ × ℕ) :=
  (buildForest cfg values).map (fun t => pathData t x)

/-- Modelled from the spec (section 4.3): the expected-path-length adjustment
`c(n) = 2*(ln(n-1) + γ) - 2*(n-1)/n` for `n > 1`, and `0` for `n ≤ 1`. -/
noncomputable def cAdjust (n : ℕ) : ℝ :=
  if n ≤ 1 then 0
  else 2 * (Real.log ((n : ℝ) - 1) + Real.eulerMascheroniConstant) -
    2 * ((n : ℝ) - 1) / (n : ℝ)

/-- The total (un-averaged) path length of a value across the forest. -/
noncomputable def sumPath (cfg : Config) (values : List Frac) (x : Frac) : ℝ :=
  ((leafStats cfg values x).map (fun p => (p.1 : ℝ) + cAdjust p.2)).sum

/-- Modelled from the spec (section 4.3): the average path length `E[h(x)]`. -/
noncomputable def avgPath (cfg : Config) (values : List Frac) (x : Frac) : ℝ :=
  sumPath cfg values x / (cfg.ensemble_size : ℝ)

/-- Modelled from the spec (section 4.3): the anomaly score
`2^(-E[h(x)] / c(s))`, where `s` is the subsample size used in construction. -/
noncomputable def anomalyScore (cfg : Config) (values : List Frac) (x : Frac) : ℝ :=
  (2 : ℝ) ^ (-(avgPath cfg values x) / cAdjust (min cfg.subsample_size values.length))

/-- Modelled from the spec (section 4.3): the number of observations to flag,
`contamination * |batch|`, rounded, with minimum `0`. -/
def anomalyCount (cfg : Config) (n : ℕ) : ℕ :=
  (round (cfg.contamination * (n : ℚ))).toNat

/-- Modelled from the spec (section 4.3): a point is flagged anomalous iff its
score is at or beyond the `k`-th largest score (ties included): equivalently,
iff fewer than `k` scores are strictly larger. -/
noncomputable def isFlagged (cfg : Config) (values : List Frac) (x : Frac) : Bool :=
  decide ((values.countP
      (fun y => decide (anomalyScore cfg values x < anomalyScore cfg values y))) <
    anomalyCount cfg values.length)

/-- Spec section 3: the record produced for each observation. -/
structure ScoredObservation where
  observation : Observation
  anomaly_score : ℝ
  is_anomaly : Bool
  rolling_mean : ℚ
  rolling_std : Option ℝ

/-- Modelled from the spec (sections 4.4, 6, 7): the scoring core.  Validates
the configuration before any construction work, rejects an empty batch, and
otherwise assembles one `ScoredObservation` per input observation, in order. -/
noncomputable def runScoring (cfg : Config) (batch : List Observation) :
    Except DetectError (List ScoredObservation) :=
  if validConfig cfg then
    if batch.isEmpty then .error .emptyBatchError
    else
      let values := batch.map (fun o => toFrac o.value)
      let rawValues := batch.map (fun o => o.value)
      .ok (batch.enum.map (fun p =>
        { observation := p.2
          anomaly_score := anomalyScore cfg values (toFrac p.2.value)
          is_anomaly := isFlagged cfg values (toFrac p.2.value)
          rolling_mean := rollingMean rawValues cfg.window_size p.1
          rolling_std := rollingStd rawValues cfg.window_size p.1 }))
  else .error .configurationError

/-- The scored list of a scoring result (empty on error). -/
def scoredOf (r : Except DetectError (List ScoredObservation)) :
    List ScoredObservation :=
  match r with
  | .ok l => l
  | .error _ => []

/-! ### Concrete instance for the spec scenario (claim C8) -/

/-- The scenario batch `[1,2,3,4,5,100]` with timestamps `0..5`. -/
def batch6 : List Observation :=
  [⟨0, 1⟩, ⟨1, 2⟩, ⟨2, 3⟩, ⟨3, 4⟩, ⟨4, 5⟩, ⟨5, 100⟩]

/-- The scenario values as fraction pairs. -/
def values6 : List Frac := [(1, 1), (2, 1), (3, 1), (4, 1), (5, 1), (100, 1)]

/-- The scenario configuration: contamination `1/6`, ensemble `100`,
subsample `6`, window `5`, seed `1`. -/
def cfg8 : Config :=
  { contamination := 1 / 6
    ensemble_size := 100
    subsample_size := 6
    window_size := 5
    random_seed := 1 }

/-- Integer lower bounds (in hundredths) for `cAdjust` on sizes `0..6`. -/
def cLoC : ℕ → ℤ
  | 0 => 0 | 1 => 0 | 2 => 0 | 3 => 105 | 4 => 155 | 5 => 217 | 6 => 250
  | _ => 0

/-- Integer upper bounds (in hundredths) for `cAdjust` on sizes `0..6`. -/
def cHiC : ℕ → ℤ
  | 0 => 0 | 1 => 0 | 2 => 34 | 3 => 139 | 4 => 222 | 5 => 251 | 6 => 294
  | _ => 0

/-- Computable lower bound for `100 * sumPath`. -/
def pathLBInt (cfg : Config) (values : List Frac) (x : Frac) : ℤ :=
  ((leafStats cfg values x).map (fun p => 100 * (p.1 : ℤ) + cLoC p.2)).sum

/-- Computable upper bound for `100 * sumPath`. -/
def pathUBInt (cfg : Config) (values : List Frac) (x : Frac) : ℤ :=
  ((leafStats cfg values x).map (fun p => 100 * (p.1 : ℤ) + cHiC p.2)).sum

/-! ### Kernel-computed facts about the scenario forest -/

theorem batch6_values : batch6.map (fun o => toFrac o.value) = values6 := by decide

theorem outlierUB : pathUBInt cfg8 values6 (100, 1) = 10600 := by decide

theorem sepLB1 : 10600 < pathLBInt cfg8 values6 (1, 1) := by decide

theorem sepLB2 : 10600 < pathLBInt cfg8 values6 (2, 1) := by decide

theorem sepLB3 : 10600 < pathLBInt cfg8 values6 (3, 1) := by decide

theorem sepLB4 : 10600 < pathLBInt cfg8 values6 (4, 1) := by decide

theorem sepLB5 : 10600 < pathLBInt cfg8 values6 (5, 1) := by decide

theorem sizes1 : ∀ p ∈ leafStats cfg8 values6 (1, 1), p.2 ≤ 6 := by decide

theorem sizes2 : ∀ p ∈ leafStats cfg8 values6 (2, 1), p.2 ≤ 6 := by decide

theorem sizes3 : ∀ p ∈ leafStats cfg8 values6 (3, 1), p.2 ≤ 6 := by decide

theorem sizes4 : ∀ p ∈ leafStats cfg8 values6 (4, 1), p.2 ≤ 6 := by decide

theorem sizes5 : ∀ p ∈ leafStats cfg8 values6 (5, 1), p.2 ≤ 6 := by decide

theorem sizes100 : ∀ p ∈ leafStats cfg8 values6 (100, 1), p.2 ≤ 6 := by decide

/-! ### Numeric bounds for the path-length adjustment `cAdjust` -/

theorem log_three_bounds :
    Real.log 2 + 1 / 3 ≤ Real.log 3 ∧ Real.log 3 ≤ Real.log 2 + 1 / 2 := by
  have h3 : Real.log 3 = Real.log 2 + Real.log (3 / 2) := by
    rw [← Real.log_mul (by norm_num) (by norm_num)]; norm_num
  have hub := Real.log_le_sub_one_of_pos (x := 3 / 2) (by norm_num)
  have hlb := Real.one_sub_inv_le_log_of_pos (x := 3 / 2) (by norm_num)
  constructor <;> rw [h3] <;> [nlinarith; nlinarith]

theorem log_five_bounds :
    2 * Real.log 2 + 1 / 5 ≤ Real.log 5 ∧ Real.log 5 ≤ 2 * Real.log 2 + 1 / 4 := by
  have h4 : Real.log 4 = Real.log 2 + Real.log 2 := by
    rw [← Real.log_mul (by norm_num) (by norm_num)]; norm_num
  have h5 : Real.log 5 = Real.log 4 + Real.log (5 / 4) := by
    rw [← Real.log_mul (by norm_num) (by norm_num)]; norm_num
  have hub := Real.log_le_sub_one_of_pos (x := 5 / 4) (by norm_num)
  have hlb := Real.one_sub_inv_le_log_of_pos (x := 5 / 4) (by norm_num)
  constructor <;> rw [h5, h4] <;> [nlinarith; nlinarith]

theorem cAdjust_bounds (n : ℕ) (h : n ≤ 6) :
    (cLoC n : ℝ) ≤ 100 * cAdjust n ∧ 100 * cAdjust n ≤ (cHiC n : ℝ) := by
  have hg1 := Real.one_half_lt_eulerMascheroniConstant
  have hg2 := Real.eulerMascheroniConstant_lt_two_thirds
  have hl2a := Real.log_two_gt_d9
  have hl2b := Real.log_two_lt_d9
  have h3 := log_three_bounds
  have h5 := log_five_bounds
  interval_cases n
  · simp [cAdjust, cLoC, cHiC]
  · simp [cAdjust, cLoC, cHiC]
  · have : cAdjust 2 = 2 * (Real.log 1 + Real.eulerMascheroniConstant) - 2 * 1 / 2 := by
      norm_num [cAdjust]
    rw [this, Real.log_one]; norm_num [cLoC, cHiC]; constructor <;> nlinarith
  · have : cAdjust 3 = 2 * (Real.log 2 + Real.eulerMascheroniConstant) - 2 * 2 / 3 := by
      norm_num [cAdjust]
    rw [this]; norm_num [cLoC, cHiC]; constructor <;> nlinarith
  · have : cAdjust 4 = 2 * (Real.log 3 + Real.eulerMascheroniConstant) - 2 * 3 / 4 := by
      norm_num [cAdjust]
    rw [this]; norm_num [cLoC, cHiC]; constructor <;> nlinarith
  · have h4 : Real.log 4 = Real.log 2 + Real.log 2 := by
      rw [← Real.log_mul (by norm_num) (by norm_num)]; norm_num
    have : cAdjust 5 = 2 * (Real.log 4 + Real.eulerMascheroniConstant) - 2 * 4 / 5 := by
      norm_num [cAdjust]
    rw [this, h4]; norm_num [cLoC, cHiC]; constructor <;> nlinarith
  · have : cAdjust 6 = 2 * (Real.log 5 + Real.eulerMascheroniConstant) - 2 * 5 / 6 := by
      norm_num [cAdjust]
    rw [this]; norm_num [cLoC, cHiC]; constructor <;> nlinarith

theorem sum_bound_list (L : List (ℕ × ℕ)) (h : ∀ p ∈ L, p.2 ≤ 6) :
    ((L.map (fun p => 100 * (p.1 : ℤ) + cLoC p.2)).sum : ℝ) ≤
      100 * ((L.map (fun p => (p.1 : ℝ) + cAdjust p.2)).sum) ∧
    100 * ((L.map (fun p => (p.1 : ℝ) + cAdjust p.2)).sum) ≤
      ((L.map (fun p => 100 * (p.1 : ℤ) + cHiC p.2)).sum : ℝ) := by
  induction L with
  | nil => simp
  | cons p L ih =>
    have hp := h p (List.mem_cons_self p L)
    have hL := ih (fun q hq => h q (List.mem_cons_of_mem p hq))
    have hc := cAdjust_bounds p.2 hp
    simp only [List.map_cons, List.sum_cons]
    push_cast at hL ⊢
    constructor <;> linarith [hc.1, hc.2, hL.1, hL.2]

theorem sumPath_bounds (cfg : Config) (values : List Frac) (x : Frac)
    (h : ∀ p ∈ leafStats cfg values x, p.2 ≤ 6) :
    (pathLBInt cfg values x : ℝ) ≤ 100 * sumPath cfg values x ∧
    100 * sumPath cfg values x ≤ (pathUBInt cfg values x : ℝ) := by
  unfold pathLBInt pathUBInt sumPath
  exact sum_bound_list (leafStats cfg values x) h

theorem avgPath_sep (x y : Frac)
    (hx : ∀ p ∈ leafStats cfg8 values6 x, p.2 ≤ 6)
    (hy : ∀ p ∈ leafStats cfg8 values6 y, p.2 ≤ 6)
    (hlt : pathUBInt cfg8 values6 x < pathLBInt cfg8 values6 y) :
    avgPath cfg8 values6 x < avgPath cfg8 values6 y := by
  have bx := sumPath_bounds cfg8 values6 x hx
  have hby := sumPath_bounds cfg8 values6 y hy
  have hcast : (pathUBInt cfg8 values6 x : ℝ) < (pathLBInt cfg8 values6 y : ℝ) := by
    exact_mod_cast hlt
  have hens : ((cfg8.ensemble_size : ℕ) : ℝ) = 100 := by norm_num [cfg8]
  unfold avgPath
  rw [hens, div_lt_div_iff_of_pos_right (by norm_num : (0:ℝ) < 100)]
  linarith [bx.2, hby.1]

theorem cAdjust6_pos : (0 : ℝ) < cAdjust 6 := by
  have h := (cAdjust_bounds 6 (by norm_num)).1
  norm_num [cLoC] at h
  linarith

theorem score_gt (x y : Frac) (h : avgPath cfg8 values6 x < avgPath cfg8 values6 y) :
    anomalyScore cfg8 values6 y < anomalyScore cfg8 values6 x := by
  unfold anomalyScore
  have h6 : min cfg8.subsample_size values6.length = 6 := rfl
  rw [h6, Real.rpow_lt_rpow_left_iff (by norm_num : (1:ℝ) < 2), neg_div, neg_div,
    neg_lt_neg_iff, div_lt_div_iff_of_pos_right cAdjust6_pos]
  exact h

theorem score100_max : ∀ v ∈ values6, v ≠ ((100 : ℤ), (1 : ℤ)) →
    anomalyScore cfg8 values6 v < anomalyScore cfg8 values6 (100, 1) := by
  intro v hv hne
  have hsep : ∀ z : Frac, pathUBInt cfg8 values6 (100, 1) < pathLBInt cfg8 values6 z →
      (∀ p ∈ leafStats cfg8 values6 z, p.2 ≤ 6) →
      anomalyScore cfg8 values6 z < anomalyScore cfg8 values6 (100, 1) := by
    intro z h1 h2
    exact score_gt (100, 1) z (avgPath_sep (100, 1) z sizes100 h2 h1)
  simp only [values6, List.mem_cons, List.not_mem_nil, or_false] at hv
  rcases hv with rfl | rfl | rfl | rfl | rfl | rfl
  · exact hsep (1, 1) (by rw [outlierUB]; exact sepLB1) sizes1
  · exact hsep (2, 1) (by rw [outlierUB]; exact sepLB2) sizes2
  · exact hsep (3, 1) (by rw [outlierUB]; exact sepLB3) sizes3
  · exact hsep (4, 1) (by rw [outlierUB]; exact sepLB4) sizes4
  · exact hsep (5, 1) (by rw [outlierUB]; exact sepLB5) sizes5
  · exact absurd rfl hne

theorem anomalyCount6 : anomalyCount cfg8 6 = 1 := by
  have h1 : cfg8.contamination * ((6 : ℕ) : ℚ) = 1 := by norm_num [cfg8]
  rw [anomalyCount, h1]
  norm_num

theorem flag100 : isFlagged cfg8 values6 (100, 1) = true := by
  have h0 : (values6.countP (fun y =>
      decide (anomalyScore cfg8 values6 (100, 1) < anomalyScore cfg8 values6 y))) = 0 := by
    rw [List.countP_eq_zero]
    intro y hy
    simp only [decide_eq_true_eq]
    by_cases hne : y = ((100 : ℤ), (1 : ℤ))
    · subst hne; exact lt_irrefl _
    · exact not_lt.mpr (le_of_lt (score100_max y hy hne))
  rw [isFlagged, h0]
  have h6 : values6.length = 6 := rfl
  rw [h6, anomalyCount6]
  decide

theorem flagOther (v : Frac) (hv : v ∈ values6) (hne : v ≠ ((100 : ℤ), (1 : ℤ))) :
    isFlagged cfg8 values6 v = false := by
  have h1 : 0 < values6.countP (fun y =>
      decide (anomalyScore cfg8 values6 v < anomalyScore cfg8 values6 y)) := by
    rw [List.countP_pos_iff]
    refine ⟨(100, 1), by decide, ?_⟩
    simp only [decide_eq_true_eq]
    exact score100_max v hv hne
  rw [isFlagged]
  have h6 : values6.length = 6 := rfl
  rw [h6, anomalyCount6]
  exact decide_eq_false (by omega)

/-! ### Remaining helper lemmas -/

theorem scored_flags :
    (scoredOf (runScoring cfg8 batch6)).map (fun s => s.is_anomaly) =
      [false, false, false, false, false, true] := by
  have hv : validConfig cfg8 := by
    refine ⟨by norm_num [cfg8], by norm_num [cfg8], by norm_num [cfg8],
      by norm_num [cfg8], by norm_num [cfg8]⟩
  have hne : batch6.isEmpty = false := by simp [batch6]
  rw [runScoring, if_pos hv, hne]
  simp only [Bool.false_eq_true, if_false, scoredOf, List.map_map]
  rw [batch6_values]
  have henum : batch6.enum = [(0, (⟨0, 1⟩ : Observation)), (1, ⟨1, 2⟩), (2, ⟨2, 3⟩),
      (3, ⟨3, 4⟩), (4, ⟨4, 5⟩), (5, ⟨5, 100⟩)] := rfl
  rw [henum]
  simp only [List.map_cons, List.map_nil, Function.comp]
  rw [show toFrac ((1:ℚ)) = ((1:ℤ), (1:ℤ)) from by decide,
      show toFrac ((2:ℚ)) = ((2:ℤ), (1:ℤ)) from by decide,
      show toFrac ((3:ℚ)) = ((3:ℤ), (1:ℤ)) from by decide,
      show toFrac ((4:ℚ)) = ((4:ℤ), (1:ℤ)) from by decide,
      show toFrac ((5:ℚ)) = ((5:ℤ), (1:ℤ)) from by decide,
      show toFrac ((100:ℚ)) = ((100:ℤ), (1:ℤ)) from by decide]
  rw [flagOther (1, 1) (by decide) (by decide),
      flagOther (2, 1) (by decide) (by decide),
      flagOther (3, 1) (by decide) (by decide),
      flagOther (4, 1) (by decide) (by decide),
      flagOther (5, 1) (by decide) (by decide),
      flag100]

theorem roll_mean4 : rollingMean [1, 2, 3, 4, 5, 100] 5 4 = 3 := by
  have hw : windowAt [1, 2, 3, 4, 5, 100] 5 4 = [1, 2, 3, 4, 5] := rfl
  rw [rollingMean, hw, meanOf]
  norm_num

theorem roll_var4 : rollingVar [1, 2, 3, 4, 5, 100] 5 4 = some (5 / 2) := by
  have hw : windowAt [1, 2, 3, 4, 5, 100] 5 4 = [1, 2, 3, 4, 5] := rfl
  have hm : meanOf [1, 2, 3, 4, 5] = 3 := by rw [meanOf]; norm_num
  rw [rollingVar, hw, sampleVar, if_pos (by norm_num)]
  rw [hm]
  norm_num

theorem roll_std4 : rollingStd [1, 2, 3, 4, 5, 100] 5 4 = some (Real.sqrt (5 / 2)) := by
  rw [rollingStd, roll_var4]
  norm_num

theorem sqrt_five_half_bounds : 1.58 < Real.sqrt (5 / 2) ∧ Real.sqrt (5 / 2) < 1.59 := by
  constructor
  · rw [show (1.58 : ℝ) = Real.sqrt (1.58 ^ 2) by rw [Real.sqrt_sq (by norm_num)]]
    exact Real.sqrt_lt_sqrt (by norm_num) (by norm_num)
  · rw [show (1.59 : ℝ) = Real.sqrt (1.59 ^ 2) by rw [Real.sqrt_sq (by norm_num)]]
    exact Real.sqrt_lt_sqrt (by norm_num) (by norm_num)

theorem windowAt_eq_spec (xs : List ℚ) (w i : ℕ) (hw : 1 ≤ w) (hi : i < xs.length) :
    windowAt xs w i = specWindow xs w i ∧ (windowAt xs w i).length = min (i + 1) w := by
  have hs : (((i : ℤ) - w + 1).toNat) = i + 1 - w := by omega
  have hlen : (windowAt xs w i).length = min (i + 1) w := by
    rw [windowAt, List.length_drop, List.length_take]
    omega
  refine ⟨?_, hlen⟩
  apply List.ext_getElem
  · rw [hlen, specWindow, List.length_map, List.length_range', hs]
    omega
  · intro n h1 h2
    have hidx : i + 1 - w + n < xs.length := by
      rw [hlen] at h1; omega
    simp only [windowAt, specWindow, List.getElem_drop, List.getElem_take,
      List.getElem_map, List.getElem_range', hs]
    rw [getElem!_pos xs (i + 1 - w + 1 * n) (by omega)]
    congr 1
    omega

theorem meanOf_replicate (k : ℕ) (c : ℚ) (hk : k ≠ 0) : meanOf (List.replicate k c) = c := by
  rw [meanOf, List.sum_replicate, List.length_replicate, nsmul_eq_mul]
  rw [mul_comm, mul_div_assoc, div_self (by exact_mod_cast hk), mul_one]

theorem maskFilter_cons (q : Bool) (m : List Bool) (x : α) (l : List α) :
    maskFilter (q :: m) (x :: l) =
      if q = true then x :: maskFilter m l else maskFilter m l := by
  rw [maskFilter, List.zip_cons_cons, List.filter_cons]
  cases q <;> simp [maskFilter]

theorem maskZip (labels : List ℤ) (a : List α) (b : List β) (c : List γ) (d : List δ)
    (ha : a.length = labels.length) (hb : b.length = labels.length)
    (hc : c.length = labels.length) (hd : d.length = labels.length) :
    zip4 (maskFilter (labels.map (fun t => t == -1)) a)
      (maskFilter (labels.map (fun t => t == -1)) b)
      (maskFilter (labels.map (fun t => t == -1)) c)
      (maskFilter (labels.map (fun t => t == -1)) d) =
    (((zip4 a b c d).zip labels).filter (fun p => p.2 == -1)).map (fun p => p.1) := by
  induction labels generalizing a b c d with
  | nil =>
    rw [List.length_nil, List.length_eq_zero] at ha hb hc hd
    subst ha hb hc hd
    rfl
  | cons t ts ih =>
    match a, b, c, d with
    | x :: a, y :: b, z :: c, u :: d =>
      simp only [List.length_cons, Nat.add_right_cancel_iff] at ha hb hc hd
      simp only [List.map_cons, maskFilter_cons, zip4, List.zip_cons_cons, List.filter_cons]
      cases hq : (t == -1) <;>
        simp only [Bool.false_eq_true, if_false, if_true, zip4, List.map_cons] <;>
        rw [ih a b c d ha hb hc hd]

theorem meanColumn_length (xs : List ℚ) (w : ℕ) : (meanColumn xs w).length = xs.length := by
  simp [meanColumn]

theorem stdDevColumn_length (xs : List ℚ) (w : ℕ) :
    (stdDevColumn xs w).length = xs.length := by
  simp [stdDevColumn]

/-! ### The claims -/

/-- Claim C1: for every batch and window size `w`, the rolling statistics at
index `i` are the mean and the sample standard deviation (n-1 denominator) of
the value column over the index range `[max(0, i-w+1), i]` inclusive — a
causal trailing window with no future lookahead, and for `i < w-1` the window
is the shorter partial prefix (`min_periods=1` semantics, window length
`min(i+1, w)`). -/
theorem rolling_window_matches_spec (xs : List ℚ) (w i : ℕ) (hw : 1 ≤ w)
    (hi : i < xs.length) :
    windowAt xs w i = specWindow xs w i ∧
    (windowAt xs w i).length = min (i + 1) w ∧
    rollingMean xs w i = meanOf (specWindow xs w i) ∧
    rollingVar xs w i = sampleVar (specWindow xs w i) ∧
    rollingStd xs w i = (sampleVar (specWindow xs w i)).map (fun v => Real.sqrt (v : ℝ)) := by
  obtain ⟨h1, h2⟩ := windowAt_eq_spec xs w i hw hi
  refine ⟨h1, h2, ?_, ?_, ?_⟩
  · rw [rollingMean, h1]
  · rw [rollingVar, h1]
  · rw [rollingStd, rollingVar, h1]

theorem rolling_window_matches_spec_witness :
    (1 ≤ 5 ∧ 1 < ([10, 20, 30] : List ℚ).length) ∧
    (windowAt [10, 20, 30] 5 1 = specWindow [10, 20, 30] 5 1 ∧
     (windowAt [10, 20, 30] 5 1).length = min (1 + 1) 5 ∧
     rollingMean [10, 20, 30] 5 1 = meanOf (specWindow [10, 20, 30] 5 1) ∧
     rollingVar [10, 20, 30] 5 1 = sampleVar (specWindow [10, 20, 30] 5 1) ∧
     rollingStd [10, 20, 30] 5 1 =
       (sampleVar (specWindow [10, 20, 30] 5 1)).map (fun v => Real.sqrt (v : ℝ))) :=
  ⟨⟨by norm_num, by norm_num⟩,
    rolling_window_matches_spec [10, 20, 30] 5 1 (by norm_num) (by norm_num)⟩

/-- Claim C2: the rolling standard deviation over a window holding exactly one
element (in particular at index 0) is NaN (`none`), not zero; over an
all-identical batch the rolling mean equals that constant at every index, and
the rolling standard deviation is 0 at every index whose window holds at
least two elements. -/
theorem rolling_std_single_window_and_constant_batch :
    (∀ (xs : List ℚ) (w i : ℕ), (windowAt xs w i).length = 1 → rollingStd xs w i = none) ∧
    (∀ (xs : List ℚ) (w : ℕ), xs ≠ [] → 1 ≤ w → rollingStd xs w 0 = none) ∧
    (∀ (n : ℕ) (c : ℚ) (w i : ℕ), 1 ≤ w → i < n →
      rollingMean (List.replicate n c) w i = c ∧
      (2 ≤ (windowAt (List.replicate n c) w i).length →
        rollingStd (List.replicate n c) w i = some 0)) := by
  have hnone : ∀ (xs : List ℚ) (w i : ℕ), (windowAt xs w i).length = 1 →
      rollingStd xs w i = none := by
    intro xs w i h1
    rw [rollingStd, rollingVar, sampleVar, if_neg (by omega)]
    rfl
  refine ⟨hnone, ?_, ?_⟩
  · intro xs w hxs hw
    apply hnone
    rw [windowAt, List.length_drop, List.length_take]
    have : xs.length ≠ 0 := by simpa [List.length_eq_zero] using hxs
    omega
  · intro n c w i hw hi
    have hwin : windowAt (List.replicate n c) w i =
        List.replicate (min (i + 1) n - (i + 1 - w)) c := by
      rw [windowAt, List.take_replicate, List.drop_replicate]
    have hk : min (i + 1) n - (i + 1 - w) ≠ 0 := by omega
    constructor
    · rw [rollingMean, hwin, meanOf_replicate _ _ hk]
    · intro h2
      rw [hwin, List.length_replicate] at h2
      rw [rollingStd, rollingVar, hwin, sampleVar,
        if_pos (by rw [List.length_replicate]; omega)]
      rw [meanOf_replicate _ _ hk, List.map_replicate]
      simp

theorem rolling_std_single_window_and_constant_batch_witness :
    ((windowAt ([3, 7] : List ℚ) 5 0).length = 1 ∧
      rollingStd ([3, 7] : List ℚ) 5 0 = none) ∧
    (([3, 7] : List ℚ) ≠ [] ∧ rollingStd ([3, 7] : List ℚ) 5 0 = none) ∧
    ((1 : ℕ) < 3 ∧ rollingMean (List.replicate 3 (4 : ℚ)) 5 1 = 4 ∧
      rollingStd (List.replicate 3 (4 : ℚ)) 5 1 = some 0) :=
  ⟨⟨rfl, rolling_std_single_window_and_constant_batch.1 [3, 7] 5 0 rfl⟩,
   ⟨by simp, rolling_std_single_window_and_constant_batch.2.1 [3, 7] 5 (by simp) (by norm_num)⟩,
   ⟨by norm_num,
    (rolling_std_single_window_and_constant_batch.2.2 3 4 5 1 (by norm_num) (by norm_num)).1,
    (rolling_std_single_window_and_constant_batch.2.2 3 4 5 1 (by norm_num) (by norm_num)).2
      (by decide)⟩⟩

/-- Claim C3: determinism — two scoring calls with an identical batch,
identical configuration and identical random seed produce identical anomaly
scores and anomaly labels (the scoring result is a pure function of batch and
configuration, the seed being a configuration field). -/
theorem scoring_deterministic (cfg cfg' : Config) (b b' : List Observation)
    (hcfg : cfg = cfg') (hb : b = b') : runScoring cfg b = runScoring cfg' b' := by
  rw [hcfg, hb]

theorem scoring_deterministic_witness :
    cfg8 = cfg8 ∧ batch6 = batch6 ∧ runScoring cfg8 batch6 = runScoring cfg8 batch6 :=
  ⟨rfl, rfl, scoring_deterministic cfg8 cfg8 batch6 batch6 rfl rfl⟩

/-- Claim C4: every observation of a (non-empty) batch scored under a valid
configuration yields exactly one `ScoredObservation`: the scored output has
the same length as the batch and projecting the observation field returns the
batch itself, in order. -/
theorem scoring_output_one_per_observation (cfg : Config) (batch : List Observation)
    (hv : validConfig cfg) (hb : batch ≠ []) :
    (scoredOf (runScoring cfg batch)).map (fun s => s.observation) = batch ∧
    (scoredOf (runScoring cfg batch)).length = batch.length := by
  have hne : batch.isEmpty = false := by rwa [List.isEmpty_eq_false]
  rw [runScoring, if_pos hv, hne]
  simp only [Bool.false_eq_true, if_false, scoredOf]
  constructor
  · rw [List.map_map]
    exact List.enum_map_snd batch
  · simp [List.enum_length]

theorem scoring_output_one_per_observation_witness :
    validConfig cfg8 ∧ batch6 ≠ [] ∧
    ((scoredOf (runScoring cfg8 batch6)).map (fun s => s.observation) = batch6 ∧
     (scoredOf (runScoring cfg8 batch6)).length = batch6.length) :=
  ⟨by norm_num [validConfig, cfg8], by simp [batch6],
   scoring_output_one_per_observation cfg8 batch6 (by norm_num [validConfig, cfg8])
     (by simp [batch6])⟩

/-- Claim C5: the export writes, under the filename determined by the dataset
identifier, exactly the rows whose Isolation Forest label is `-1`, in
original batch order, projected to the four columns
`timestamp, value, mean, std_dev`. -/
theorem export_exactly_anomalous_rows (fp : List ℚ → List ℤ) (data : Frame) (name : String)
    (hts : data.timestamp.length = data.value.length)
    (hfp : (fp data.value).length = data.value.length) :
    save_anomalies_to_csv (detect_anomalies_isolation_forest fp data).2 name =
      (csvFilename name,
        (((zip4 data.timestamp data.value (meanColumn data.value 5)
            (stdDevColumn data.value 5)).zip (fp data.value)).filter
          (fun p => p.2 == -1)).map (fun p => p.1)) := by
  unfold detect_anomalies_isolation_forest frameFilter save_anomalies_to_csv
  simp only [Option.map_some', Option.getD_some]
  rw [maskZip (fp data.value) _ _ _ _ (by omega) (by omega)
    (by rw [meanColumn_length]; omega) (by rw [stdDevColumn_length]; omega)]

theorem export_exactly_anomalous_rows_witness :
    ((Frame.mk [10, 20] [1, 2] none none none).timestamp.length =
      (Frame.mk [10, 20] [1, 2] none none none).value.length) ∧
    (((fun v => List.replicate v.length (-1 : ℤ)) (Frame.mk [10, 20] [1, 2] none none none).value).length =
      (Frame.mk [10, 20] [1, 2] none none none).value.length) ∧
    save_anomalies_to_csv
        (detect_anomalies_isolation_forest (fun v => List.replicate v.length (-1 : ℤ))
          (Frame.mk [10, 20] [1, 2] none none none)).2 "Server CPU Load" =
      ("cpu_anomalies.csv",
        (((zip4 (Frame.mk [10, 20] [1, 2] none none none).timestamp
            (Frame.mk [10, 20] [1, 2] none none none).value
            (meanColumn (Frame.mk [10, 20] [1, 2] none none none).value 5)
            (stdDevColumn (Frame.mk [10, 20] [1, 2] none none none).value 5)).zip
          ((fun v => List.replicate v.length (-1 : ℤ))
            (Frame.mk [10, 20] [1, 2] none none none).value)).filter
          (fun p => p.2 == -1)).map (fun p => p.1)) :=
  ⟨by simp, by simp,
    export_exactly_anomalous_rows (fun v => List.replicate v.length (-1 : ℤ))
      (Frame.mk [10, 20] [1, 2] none none none) "Server CPU Load" (by simp) (by simp)⟩

/-- Claim C6: for every batch, a configuration with `contamination = 0`,
`ensemble_size = 0` or `window_size = 0` makes the scoring call fail with
`ConfigurationError`; validation precedes all construction, so no tree is
built and no partial result is produced. -/
theorem invalid_config_raises_configuration_error (cfg : Config) (batch : List Observation)
    (h : cfg.contamination = 0 ∨ cfg.ensemble_size = 0 ∨ cfg.window_size = 0) :
    runScoring cfg batch = .error .configurationError := by
  rw [runScoring, if_neg]
  intro hv
  obtain ⟨h1, h2, h3, h4, h5⟩ := hv
  rcases h with h | h | h
  · rw [h] at h1; exact lt_irrefl 0 h1
  · omega
  · omega

theorem invalid_config_raises_configuration_error_witness :
    ((Config.mk 0 100 6 5 1).contamination = 0 ∨ (Config.mk 0 100 6 5 1).ensemble_size = 0 ∨
      (Config.mk 0 100 6 5 1).window_size = 0) ∧
    runScoring (Config.mk 0 100 6 5 1) batch6 = .error .configurationError :=
  ⟨Or.inl rfl,
    invalid_config_raises_configuration_error (Config.mk 0 100 6 5 1) batch6 (Or.inl rfl)⟩

/-- Claim C7 (amended): for every invocation with a valid configuration on a
batch with zero observations, scoring fails with `EmptyBatchError` and
returns no partial result.  (With an invalid configuration the configuration
check fires first, see the counterexample.) -/
theorem empty_batch_raises_error_valid_config (cfg : Config) (hv : validConfig cfg) :
    runScoring cfg [] = .error .emptyBatchError := by
  rw [runScoring, if_pos hv]
  rfl

theorem empty_batch_raises_error_valid_config_witness :
    validConfig cfg8 ∧ runScoring cfg8 [] = .error .emptyBatchError :=
  ⟨by norm_num [validConfig, cfg8],
    empty_batch_raises_error_valid_config cfg8 (by norm_num [validConfig, cfg8])⟩

/-- Claim C7 counterexample: an invocation on the empty batch whose
configuration is also invalid (contamination 0) raises `ConfigurationError`,
not `EmptyBatchError` — configuration validation fails fast before the batch
is examined, so the claim does not hold for every invocation. -/
theorem empty_batch_error_counterexample :
    runScoring (Config.mk 0 100 6 5 1) [] ≠ Except.error DetectError.emptyBatchError := by
  rw [runScoring, if_neg]
  · simp
  · intro hv
    exact lt_irrefl 0 hv.1

/-- Claim C8 counterexample: in the scenario batch `[1,2,3,4,5,100]` with
window 5, the rolling mean at index 5 is the mean of values `[2,3,4,5,100]`,
namely `114/5 = 22.8`, not `3.0` — the window of values `[1..5]` ends at
index 4, not index 5. -/
theorem scenario_rolling_index5_counterexample :
    rollingMean [1, 2, 3, 4, 5, 100] 5 5 ≠ 3 := by
  have hw : windowAt [1, 2, 3, 4, 5, 100] 5 5 = [2, 3, 4, 5, 100] := rfl
  rw [rollingMean, hw, meanOf]
  norm_num

/-- Claim C8 (amended): for the batch `[1,2,3,4,5,100]` with window 5,
contamination `1/6`, ensemble 100, subsample 6 and fixed seed 1: the rolling
mean at index 4 (the window of values `[1..5]`) is `3.0`, the rolling
standard deviation there is `√(5/2) ≈ 1.58`, and the scoring flags exactly
the point with value 100 as anomalous. -/
theorem scenario_batch_amended :
    (scoredOf (runScoring cfg8 batch6)).map (fun s => s.is_anomaly) =
      [false, false, false, false, false, true] ∧
    rollingMean [1, 2, 3, 4, 5, 100] 5 4 = 3 ∧
    rollingStd [1, 2, 3, 4, 5, 100] 5 4 = some (Real.sqrt (5 / 2)) ∧
    1.58 < Real.sqrt (5 / 2) ∧ Real.sqrt (5 / 2) < 1.59 :=
  ⟨scored_flags, roll_mean4, roll_std4, sqrt_five_half_bounds.1, sqrt_five_half_bounds.2⟩

/-- Claim C9: the scoring function mutates its input frame in place — after
the call, the frame holds the three new columns `anomaly`, `mean`, `std_dev`
while the pre-existing `timestamp` and `value` columns are unchanged. -/
theorem detect_mutates_input_frame (fp : List ℚ → List ℤ) (data : Frame) :
    (detect_anomalies_isolation_forest fp data).1.timestamp = data.timestamp ∧
    (detect_anomalies_isolation_forest fp data).1.value = data.value ∧
    (detect_anomalies_isolation_forest fp data).1.anomaly = some (fp data.value) ∧
    (detect_anomalies_isolation_forest fp data).1.mean = some (meanColumn data.value 5) ∧
    (detect_anomalies_isolation_forest fp data).1.std_dev =
      some (stdDevColumn data.value 5) :=
  ⟨rfl, rfl, rfl, rfl, rfl⟩

/-- Claim C10: every dataset name other than `Server CPU Load` and
`Ambient System Temperature` falls through to the taxi filename
`nyc_taxi_anomalies.csv`. -/
theorem unknown_dataset_exports_to_taxi_csv (s : String) (h1 : s ≠ "Server CPU Load")
    (h2 : s ≠ "Ambient System Temperature") :
    csvFilename s = "nyc_taxi_anomalies.csv" := by
  rw [csvFilename, if_neg h1, if_neg h2]

theorem unknown_dataset_exports_to_taxi_csv_witness :
    ("NYC Taxi Demand" ≠ "Server CPU Load" ∧
      "NYC Taxi Demand" ≠ "Ambient System Temperature") ∧
    csvFilename "NYC Taxi Demand" = "nyc_taxi_anomalies.csv" :=
  ⟨⟨by decide, by decide⟩,
    unknown_dataset_exports_to_taxi_csv "NYC Taxi Demand" (by decide) (by decide)⟩
